import Mathlib

/-
Verification of the storage and lifecycle layer of the sensor-monitoring
service (Rust, rusqlite-backed).  The SQLite-visible state is embedded as a
pure Lean structure `DB`; each store method becomes a pure function from the
pre-state to a pair of the committed post-state and an `Except`-style result,
mirroring transaction semantics: an error result commits nothing beyond what
the corresponding SQL statements actually changed.

Machine integers (Rust i64) are embedded as `Int`; SQLite REAL (Rust f64)
values are carried as `Rat` (they are only stored and compared, never subject
to rounding in the verified claims).  Time is an explicit `now : Int`
parameter wherever the source calls SystemTime::now.
-/

set_option maxHeartbeats 1000000

/-- Error values returned by store methods.  The source returns
anyhow errors carrying the message strings reproduced below, and
rusqlite constraint errors; the constructor names follow the error
taxonomy of the specification (NotFound, BadRequest, Conflict,
ForeignKeyViolation). -/
inductive DbErr where
  | foreignKey
  | notFound (msg : String)
  | badRequest (msg : String)
  | conflict (msg : String)
deriving DecidableEq, Repr

/-- A row of the sensors table
(src/models/sensor.rs, persisted layout in the spec). -/
structure SensorRow where
  sensor_id : Int
  sensor_name : String
  sensor_type : String
  location : Option String
  unit : Option String
  threshold_min : Option Rat
  threshold_max : Option Rat
  calibration_date : Option Int
  notes : Option String
  created_at : Int
  updated_at : Int
deriving DecidableEq, Repr

/-- A row of the readings table. -/
structure ReadingRow where
  reading_id : Int
  timestamp : Int
  sensor_id : Int
  value : Option Rat
  state : Option Int
  change_type : Option String
deriving DecidableEq, Repr

/-- A row of the logging_sessions table. -/
structure SessionRow where
  session_id : Int
  sensor_id : Int
  start_time : Int
  end_time : Option Int
  sample_rate : Option Int
  notes : Option String
deriving DecidableEq, Repr

/-- The SQLite database state visible to the entity stores: the three
entity tables plus the next rowid for each (AUTOINCREMENT-style id
assignment used by last_insert_rowid in the source). -/
structure DB where
  sensors : List SensorRow
  readings : List ReadingRow
  sessions : List SessionRow
  nextSensorId : Int
  nextReadingId : Int
  nextSessionId : Int
deriving DecidableEq, Repr

/-- A freshly migrated, empty store (SQLite rowids start at 1). -/
def DB.init : DB :=
  { sensors := [], readings := [], sessions := [],
    nextSensorId := 1, nextReadingId := 1, nextSessionId := 1 }

/-- Foreign-key check: PRAGMA foreign_keys = ON makes every insert into
readings and logging_sessions require an existing sensors row. -/
def sensorExists (db : DB) (sid : Int) : Bool :=
  db.sensors.any (fun s => s.sensor_id == sid)

/- ----------------------------------------------------------------
Schema migrator (src/db/migrations.rs)
---------------------------------------------------------------- -/

/-- Target schema version (CURRENT_VERSION in src/db/migrations.rs). -/
def CURRENT_VERSION : Int := 1

/-- State of the migration bookkeeping: whether the schema_version table
exists, its rows, and how many times the initial-schema DDL batch has
been executed (so that a second run being DDL-free is expressible). -/
structure MigState where
  tableExists : Bool
  versions : List Int
  ddlRuns : Nat
deriving DecidableEq, Repr

/-- The SELECT version ... ORDER BY version DESC LIMIT 1 query of
run_migrations: the largest recorded version, with unwrap_or(0) when the
table is empty. -/
def maxVersion : List Int → Int
  | [] => 0
  | v :: vs =>
    match vs with
    | [] => v
    | _ => max v (maxVersion vs)

/-- Embeds run_migrations (src/db/migrations.rs lines 8 to 49): create the
schema_version table if absent, read the highest recorded version
(default 0), and if it is below CURRENT_VERSION apply the pending DDL
(only the version-0 initial schema exists) and record the new version,
all inside one transaction. -/
def run_migrations (s : MigState) : MigState :=
  let s1 : MigState := { s with tableExists := true }
  let version := maxVersion s1.versions
  if version < CURRENT_VERSION then
    let s2 : MigState :=
      if version == 0 then { s1 with ddlRuns := s1.ddlRuns + 1 } else s1
    { s2 with versions := CURRENT_VERSION :: s2.versions }
  else
    s1

theorem maxVersion_cons (v : Int) (vs : List Int) :
    maxVersion (v :: vs) = v ∨ maxVersion (v :: vs) = max v (maxVersion vs) := by
  cases vs with
  | nil => exact Or.inl rfl
  | cons w ws => exact Or.inr rfl

theorem le_maxVersion_cons (v : Int) (vs : List Int) :
    v ≤ maxVersion (v :: vs) := by
  cases vs with
  | nil => simp [maxVersion]
  | cons w ws => simp [maxVersion]

/-- Claim C5: running the migrator a second time on a store already
migrated to the current target version is a no-op: the second run returns
the state of the first run unchanged (so the recorded schema version is
unchanged and no DDL batch is executed), and the model is total, so no
error is produced on that path. -/
theorem run_migrations_idempotent (s : MigState) :
    run_migrations (run_migrations s) = run_migrations s := by
  unfold run_migrations
  by_cases h : maxVersion s.versions < CURRENT_VERSION
  · simp only [h, if_true]
    by_cases h0 : maxVersion s.versions == 0
    · simp only [h0, if_true]
      have hle : (1 : Int) ≤ maxVersion (CURRENT_VERSION :: s.versions) :=
        le_maxVersion_cons CURRENT_VERSION s.versions
      have hnot : ¬ maxVersion (CURRENT_VERSION :: s.versions) < CURRENT_VERSION := by
        simp only [CURRENT_VERSION] at hle ⊢
        omega
      simp [hnot]
    · simp only [h0, if_false]
      have hle : (1 : Int) ≤ maxVersion (CURRENT_VERSION :: s.versions) :=
        le_maxVersion_cons CURRENT_VERSION s.versions
      have hnot : ¬ maxVersion (CURRENT_VERSION :: s.versions) < CURRENT_VERSION := by
        simp only [CURRENT_VERSION] at hle ⊢
        omega
      simp [hnot]
  · simp [h]

/- ----------------------------------------------------------------
Entity store inputs (the deserialized request structs of the source)
---------------------------------------------------------------- -/

/-- The Reading input struct (src/models/reading.rs lines 9 to 17). -/
structure Reading where
  reading_id : Option Int
  timestamp : Option Int
  sensor_id : Int
  value : Option Rat
  state : Option Int
  change_type : Option String
deriving DecidableEq, Repr

/-- The ReadingQuery filter struct (src/models/reading.rs lines 29 to 36). -/
structure ReadingQuery where
  sensor_id : Option Int
  start_time : Option Int
  end_time : Option Int
  limit : Option Nat
  offset : Option Nat
deriving DecidableEq, Repr

/-- The Sensor input struct (src/models/sensor.rs lines 149 to 164). -/
structure Sensor where
  sensor_id : Option Int
  sensor_name : String
  sensor_type : String
  location : Option String
  unit : Option String
  threshold_min : Option Rat
  threshold_max : Option Rat
  calibration_date : Option Int
  notes : Option String
deriving DecidableEq, Repr

/-- The LoggingSession input struct (src/models/session.rs lines 9 to 17). -/
structure LoggingSession where
  session_id : Option Int
  sensor_id : Int
  start_time : Option Int
  end_time : Option Int
  sample_rate : Option Int
  notes : Option String
deriving DecidableEq, Repr

/- ----------------------------------------------------------------
Reading store (src/models/reading.rs)
---------------------------------------------------------------- -/

/-- Embeds Reading::create (src/models/reading.rs lines 51 to 81): uses
now when the timestamp is absent, INSERTs the row (the foreign key on
sensor_id is enforced, PRAGMA foreign_keys = ON), and returns
last_insert_rowid.  No validation of value or state is performed by the
source. -/
def Reading.create (db : DB) (r : Reading) (now : Int) : DB × Except DbErr Int :=
  let ts := r.timestamp.getD now
  if sensorExists db r.sensor_id then
    ({ db with
        readings := db.readings ++
          [{ reading_id := db.nextReadingId, timestamp := ts,
             sensor_id := r.sensor_id, value := r.value, state := r.state,
             change_type := r.change_type }],
        nextReadingId := db.nextReadingId + 1 },
     .ok db.nextReadingId)
  else
    (db, .error .foreignKey)

/-- One iteration of the bulk-insert loop body: the INSERT statement
executed inside the open transaction. -/
def insertReadingTx (db : DB) (r : Reading) (now : Int) : Except DbErr DB :=
  let ts := r.timestamp.getD now
  if sensorExists db r.sensor_id then
    .ok { db with
          readings := db.readings ++
            [{ reading_id := db.nextReadingId, timestamp := ts,
               sensor_id := r.sensor_id, value := r.value, state := r.state,
               change_type := r.change_type }],
          nextReadingId := db.nextReadingId + 1 }
  else
    .error .foreignKey

/-- The for-loop of Reading::bulk_insert over the uncommitted
transaction state, counting the executed inserts. -/
def bulkInsertLoop (db : DB) (now : Int) : List Reading → Nat → Except DbErr (DB × Nat)
  | [], count => .ok (db, count)
  | r :: rs, count =>
    match insertReadingTx db r now with
    | .error e => .error e
    | .ok db2 => bulkInsertLoop db2 now rs (count + 1)

/-- Embeds Reading::bulk_insert (src/models/reading.rs lines 84 to 119):
now is captured once at batch start; all rows are inserted inside one
transaction; the first failing insert propagates its single error and the
dropped transaction rolls the batch back (the pre-state is committed);
otherwise the transaction commits and the count of inserted rows is
returned. -/
def Reading.bulk_insert (db : DB) (rs : List Reading) (now : Int) : DB × Except DbErr Nat :=
  match bulkInsertLoop db now rs 0 with
  | .error e => (db, .error e)
  | .ok (db2, count) => (db2, .ok count)

/-- Timestamp-descending comparison used by ORDER BY timestamp DESC. -/
def tsGe (a b : ReadingRow) : Prop := b.timestamp ≤ a.timestamp

instance : DecidableRel tsGe :=
  fun a b => inferInstanceAs (Decidable (b.timestamp ≤ a.timestamp))

instance : IsTotal ReadingRow tsGe :=
  ⟨fun a b => le_total b.timestamp a.timestamp⟩

instance : IsTrans ReadingRow tsGe :=
  ⟨fun _ _ _ hab hbc => le_trans hbc hab⟩

/-- Embeds Reading::get (src/models/reading.rs lines 122 to 168): the WHERE
clause is built by appending one AND condition per supplied filter, then
ORDER BY timestamp DESC, then LIMIT (supplied limit, default 1000) and
OFFSET (skipped rows are taken after ordering, before the limit, per SQL
LIMIT/OFFSET semantics). -/
def Reading.get (db : DB) (q : ReadingQuery) : List ReadingRow :=
  let rows := db.readings
  let rows :=
    match q.sensor_id with
    | some sid => rows.filter (fun r => r.sensor_id == sid)
    | none => rows
  let rows :=
    match q.start_time with
    | some st => rows.filter (fun r => st ≤ r.timestamp)
    | none => rows
  let rows :=
    match q.end_time with
    | some et => rows.filter (fun r => r.timestamp ≤ et)
    | none => rows
  let rows := List.insertionSort tsGe rows
  let rows :=
    match q.offset with
    | some o => rows.drop o
    | none => rows
  rows.take (q.limit.getD 1000)

/-- Embeds Reading::delete_range (src/models/reading.rs lines 187 to 206):
deletes rows with start_time ≤ timestamp ≤ end_time, optionally restricted
to one sensor, returning the deleted count. -/
def Reading.delete_range (db : DB) (sensor_id : Option Int)
    (start_time end_time : Int) : DB × Nat :=
  let hit := fun r : ReadingRow =>
    start_time ≤ r.timestamp && r.timestamp ≤ end_time &&
      (match sensor_id with
       | some sid => r.sensor_id == sid
       | none => true)
  ({ db with readings := db.readings.filter (fun r => !(hit r)) },
   (db.readings.filter hit).length)

/- ----------------------------------------------------------------
Sensor store (src/models/sensor.rs)
---------------------------------------------------------------- -/

/-- Embeds Sensor::create (src/models/sensor.rs lines 189 to 223): both
created_at and updated_at are set to now; returns last_insert_rowid. -/
def Sensor.create (db : DB) (s : Sensor) (now : Int) : DB × Except DbErr Int :=
  ({ db with
      sensors := db.sensors ++
        [{ sensor_id := db.nextSensorId, sensor_name := s.sensor_name,
           sensor_type := s.sensor_type, location := s.location,
           unit := s.unit, threshold_min := s.threshold_min,
           threshold_max := s.threshold_max,
           calibration_date := s.calibration_date, notes := s.notes,
           created_at := now, updated_at := now }],
      nextSensorId := db.nextSensorId + 1 },
   .ok db.nextSensorId)

/-- The SET clause of the UPDATE in Sensor::update: sensor_name and
sensor_type go through COALESCE(?, current), but the bound parameters are
Rust String values and can never be SQL NULL, so they always overwrite;
the remaining columns are overwritten unconditionally.  Neither
created_at nor updated_at appears in the SET clause, so both keep their
stored values. -/
def applySensorUpdate (s : Sensor) (row : SensorRow) : SensorRow :=
  { row with
    sensor_name := s.sensor_name,
    sensor_type := s.sensor_type,
    location := s.location,
    unit := s.unit,
    threshold_min := s.threshold_min,
    threshold_max := s.threshold_max,
    calibration_date := s.calibration_date,
    notes := s.notes }

/-- Embeds Sensor::update (src/models/sensor.rs lines 269 to 301): runs
the UPDATE on every row matching the id (at most one, since sensor_id is
the primary key) and fails when zero rows were affected. -/
def Sensor.update (db : DB) (s : Sensor) (id : Int) : DB × Except DbErr Unit :=
  let affected := (db.sensors.filter (fun row => row.sensor_id == id)).length
  let db2 :=
    { db with
      sensors := db.sensors.map
        (fun row => if row.sensor_id == id then applySensorUpdate s row else row) }
  if affected == 0 then
    (db2, .error (.notFound "Sensor not found or no changes made"))
  else
    (db2, .ok ())

/-- Modelled from the spec: the DDL file migrations/001_initial_schema.sql
is not part of the snapshot, so the ON DELETE behaviour of the two foreign
keys referencing sensors is taken from the spec, which states that
deleting a sensor cascades to its readings and sessions via the
foreign-key relation. -/
def cascadeDelete (db : DB) (id : Int) : DB :=
  { db with
    readings := db.readings.filter (fun r => !(r.sensor_id == id)),
    sessions := db.sessions.filter (fun s => !(s.sensor_id == id)) }

/-- Embeds Sensor::delete (src/models/sensor.rs lines 304 to 314): deletes
the sensors row (cascading per the schema) and fails when zero rows were
affected. -/
def Sensor.delete (db : DB) (id : Int) : DB × Except DbErr Unit :=
  let affected := (db.sensors.filter (fun row => row.sensor_id == id)).length
  if affected == 0 then
    (db, .error (.notFound "Sensor not found"))
  else
    let db2 := cascadeDelete db id
    ({ db2 with sensors := db2.sensors.filter (fun row => !(row.sensor_id == id)) },
     .ok ())

/- ----------------------------------------------------------------
Session store (src/models/session.rs)
---------------------------------------------------------------- -/

/-- The SELECT COUNT(*) query of LoggingSession::start: the number of
sessions of the given sensor whose end_time is NULL. -/
def countActive (db : DB) (sid : Int) : Nat :=
  (db.sessions.filter (fun row => row.sensor_id == sid && row.end_time.isNone)).length

/-- The row INSERTed by LoggingSession::start: the caller-supplied
fields with start_time defaulting to now and the generated rowid. -/
def startRow (db : DB) (s : LoggingSession) (now : Int) : SessionRow :=
  { session_id := db.nextSessionId, sensor_id := s.sensor_id,
    start_time := s.start_time.getD now, end_time := s.end_time,
    sample_rate := s.sample_rate, notes := s.notes }

/-- Embeds LoggingSession::start (src/models/session.rs lines 32 to 74):
rejects when an active session for the sensor exists, otherwise defaults
start_time to now and INSERTs the row (foreign key on sensor_id
enforced), returning last_insert_rowid. -/
def LoggingSession.start (db : DB) (s : LoggingSession) (now : Int) :
    DB × Except DbErr Int :=
  if countActive db s.sensor_id > 0 then
    (db, .error (.conflict "Sensor already has an active logging session"))
  else
    if sensorExists db s.sensor_id then
      ({ db with
          sessions := db.sessions ++ [startRow db s now],
          nextSessionId := db.nextSessionId + 1 },
       .ok db.nextSessionId)
    else
      (db, .error .foreignKey)

/-- The row-level effect of the UPDATE statement in LoggingSession::end:
an active session of the addressed sensor gets end_time = now, any other
row is left as it is. -/
def endUpdateRow (sid now : Int) (row : SessionRow) : SessionRow :=
  if row.sensor_id == sid && row.end_time.isNone then
    { row with end_time := some now }
  else row

/-- Embeds LoggingSession::end (src/models/session.rs lines 77 to 97; the
Rust name end is a Lean keyword): one UPDATE sets end_time = now on every
active session of the sensor, and the call fails when the UPDATE affected
zero rows (in which case the UPDATE changed nothing). -/
def LoggingSession.end_session (db : DB) (sensor_id now : Int) :
    DB × Except DbErr Unit :=
  let affected := countActive db sensor_id
  let db2 := { db with sessions := db.sessions.map (endUpdateRow sensor_id now) }
  if affected == 0 then
    (db2, .error (.notFound "No active logging session found for this sensor"))
  else
    (db2, .ok ())

/- ----------------------------------------------------------------
Maintenance and health service (src/api/system.rs)
---------------------------------------------------------------- -/

/-- SQL aggregate MIN over a column of integers: none on the empty table. -/
def listMin : List Int → Option Int
  | [] => none
  | a :: l =>
    match listMin l with
    | none => some a
    | some m => some (min a m)

/-- SQL aggregate MAX over a column of integers: none on the empty table. -/
def listMax : List Int → Option Int
  | [] => none
  | a :: l =>
    match listMax l with
    | none => some a
    | some m => some (max a m)

/-- The GROUP BY timestamp / 3600 bucket of a reading (SQLite integer
division truncates toward zero, as does Int.tdiv). -/
def hourBucket (r : ReadingRow) : Int := Int.tdiv r.timestamp 3600

/-- The per-bucket COUNT(*) list of the peak-rate subquery. -/
def bucketCounts (rows : List ReadingRow) : List Nat :=
  ((rows.map hourBucket).dedup).map
    (fun b => (rows.filter (fun r => hourBucket r == b)).length)

/-- The DatabaseHealth response (src/api/system.rs lines 14 to 25),
restricted to the store-derived fields; database_size_mb, free_space_mb
and last_backup come from the file system, not from the store. -/
structure DatabaseHealth where
  status : String
  readings_count : Int
  oldest_reading : Option Int
  newest_reading : Option Int
  average_insert_rate : Option Rat
  peak_insert_rate : Option Rat
deriving DecidableEq, Repr

/-- Embeds the store-derived part of get_database_health
(src/api/system.rs lines 69 to 143): COUNT, MIN and MAX over readings,
and the two rates computed only when the min-to-max span is positive:
average = count divided by the span in seconds, peak = the largest
hour-aligned bucket count divided by 3600. -/
def get_database_health (db : DB) : DatabaseHealth :=
  let readings_count : Int := (db.readings.length : Int)
  let oldest_reading : Option Int :=
    if readings_count > 0 then listMin (db.readings.map (fun r => r.timestamp))
    else none
  let newest_reading : Option Int :=
    if readings_count > 0 then listMax (db.readings.map (fun r => r.timestamp))
    else none
  let rates : Option Rat × Option Rat :=
    match oldest_reading, newest_reading with
    | some oldest, some newest =>
      let duration_seconds : Rat := ((newest - oldest : Int) : Rat)
      if duration_seconds > 0 then
        let avg_rate : Rat := (readings_count : Rat) / duration_seconds
        let peak : Rat := (((bucketCounts db.readings).max?).getD 0 : Nat)
        (some avg_rate, some (peak / 3600))
      else
        (none, none)
    | _, _ => (none, none)
  let status := if readings_count > 0 && newest_reading.isSome then "healthy" else "empty"
  { status := status,
    readings_count := readings_count,
    oldest_reading := oldest_reading,
    newest_reading := newest_reading,
    average_insert_rate := rates.1,
    peak_insert_rate := rates.2 }

/-- The match arms of the task loop in run_maintenance: exactly these
three task names are recognized, every other name falls into the
catch-all arm that does nothing. -/
def recognizedTask (t : String) : Bool :=
  t == "analyze" || t == "optimize" || t == "vacuum"

/-- The JSON response of run_maintenance, restricted to the store-derived
fields; duration_seconds and new_database_size_mb come from the clock and
the file system. -/
structure MaintenanceResponse where
  success : Bool
  tasks_completed : List String
  archived_readings : Nat
deriving DecidableEq, Repr

/-- Embeds run_maintenance (src/api/system.rs lines 146 to 220): the task
loop pushes each recognized task name onto tasks_completed (analyze and
optimize execute statements that do not change table contents, vacuum is
only recorded inside the loop and executed after the commit), unknown
names are skipped silently; an archive_before bound deletes all readings
strictly below it inside the same transaction; the response always
carries success = true. -/
def run_maintenance (db : DB) (tasks : List String) (archive_before : Option Int) :
    DB × MaintenanceResponse :=
  let tasks_completed := tasks.filter recognizedTask
  let archive_count :=
    match archive_before with
    | some bound => (db.readings.filter (fun r => r.timestamp < bound)).length
    | none => 0
  let db2 :=
    match archive_before with
    | some bound =>
      { db with readings := db.readings.filter (fun r => !(r.timestamp < bound)) }
    | none => db
  (db2,
   { success := true,
     tasks_completed := tasks_completed,
     archived_readings := archive_count })

/- ----------------------------------------------------------------
Row-to-entity conversions (from_row in the three model files)
---------------------------------------------------------------- -/

/-- Outcome of a row conversion: the source functions return
Result of response and rusqlite error, but additionally contain
expect calls that abort the process; the panicked constructor makes that
control path explicit in the embedding. -/
inductive RowConv (α : Type) where
  | ok (a : α)
  | panicked (msg : String)
deriving DecidableEq, Repr

/-- Lower bound of the range of timestamps accepted by chrono
DateTime::from_timestamp (about minus 262000 years; the exact cutoff is
irrelevant to the claims, which use values far outside it). -/
def chronoMinTs : Int := -8334601228800

/-- Upper bound of the range of timestamps accepted by chrono
DateTime::from_timestamp (about the year 262142). -/
def chronoMaxTs : Int := 8210266876799

/-- Embeds chrono DateTime::from_timestamp(ts, 0): some value exactly when
the seconds fit the representable date range, none otherwise. -/
def dateTimeFromTimestamp (ts : Int) : Option Int :=
  if chronoMinTs ≤ ts ∧ ts ≤ chronoMaxTs then some ts else none

/-- The ReadingResponse struct (src/models/reading.rs lines 19 to 27);
the converted timestamp is kept in seconds. -/
structure ReadingResponse where
  reading_id : Int
  timestamp : Int
  sensor_id : Int
  value : Option Rat
  state : Option Int
  change_type : Option String
deriving DecidableEq, Repr

/-- Embeds Reading::from_row (src/models/reading.rs lines 209 to 228):
DateTime::from_timestamp(timestamp, 0).expect panics when the stored
timestamp is outside the representable range. -/
def Reading.from_row (row : ReadingRow) : RowConv ReadingResponse :=
  match dateTimeFromTimestamp row.timestamp with
  | some ts =>
    .ok { reading_id := row.reading_id, timestamp := ts,
          sensor_id := row.sensor_id, value := row.value,
          state := row.state, change_type := row.change_type }
  | none => .panicked "Invalid timestamp"

/-- The SensorResponse struct (src/models/sensor.rs lines 166 to 179). -/
structure SensorResponse where
  sensor_id : Int
  sensor_name : String
  sensor_type : String
  location : Option String
  unit : Option String
  threshold_min : Option Rat
  threshold_max : Option Rat
  calibration_date : Option Int
  notes : Option String
  created_at : Int
  updated_at : Int
deriving DecidableEq, Repr

/-- Embeds Sensor::from_row (src/models/sensor.rs lines 317 to 353):
three expect calls, on calibration_date (when present), created_at and
updated_at. -/
def Sensor.from_row (row : SensorRow) : RowConv SensorResponse :=
  match row.calibration_date with
  | some cal =>
    match dateTimeFromTimestamp cal with
    | none => .panicked "Invalid timestamp"
    | some caldt =>
      match dateTimeFromTimestamp row.created_at with
      | none => .panicked "Invalid timestamp"
      | some cdt =>
        match dateTimeFromTimestamp row.updated_at with
        | none => .panicked "Invalid timestamp"
        | some udt =>
          .ok { sensor_id := row.sensor_id, sensor_name := row.sensor_name,
                sensor_type := row.sensor_type, location := row.location,
                unit := row.unit, threshold_min := row.threshold_min,
                threshold_max := row.threshold_max,
                calibration_date := some caldt, notes := row.notes,
                created_at := cdt, updated_at := udt }
  | none =>
    match dateTimeFromTimestamp row.created_at with
    | none => .panicked "Invalid timestamp"
    | some cdt =>
      match dateTimeFromTimestamp row.updated_at with
      | none => .panicked "Invalid timestamp"
      | some udt =>
        .ok { sensor_id := row.sensor_id, sensor_name := row.sensor_name,
              sensor_type := row.sensor_type, location := row.location,
              unit := row.unit, threshold_min := row.threshold_min,
              threshold_max := row.threshold_max,
              calibration_date := none, notes := row.notes,
              created_at := cdt, updated_at := udt }

/-- The LoggingSessionResponse struct (src/models/session.rs lines 19 to
28), including the derived is_active flag. -/
structure LoggingSessionResponse where
  session_id : Int
  sensor_id : Int
  start_time : Int
  end_time : Option Int
  sample_rate : Option Int
  notes : Option String
  is_active : Bool
deriving DecidableEq, Repr

/-- Embeds LoggingSession::from_row (src/models/session.rs lines 163 to
188): expect on start_time and, when present, on end_time. -/
def LoggingSession.from_row (row : SessionRow) : RowConv LoggingSessionResponse :=
  match dateTimeFromTimestamp row.start_time with
  | none => .panicked "Invalid timestamp"
  | some sdt =>
    match row.end_time with
    | some et =>
      match dateTimeFromTimestamp et with
      | none => .panicked "Invalid timestamp"
      | some edt =>
        .ok { session_id := row.session_id, sensor_id := row.sensor_id,
              start_time := sdt, end_time := some edt,
              sample_rate := row.sample_rate, notes := row.notes,
              is_active := false }
    | none =>
      .ok { session_id := row.session_id, sensor_id := row.sensor_id,
            start_time := sdt, end_time := none,
            sample_rate := row.sample_rate, notes := row.notes,
            is_active := true }

/- ----------------------------------------------------------------
Generic helper lemmas
---------------------------------------------------------------- -/

theorem map_id_of_mem {α : Type} (l : List α) (f : α → α)
    (h : ∀ a ∈ l, f a = a) : l.map f = l := by
  induction l with
  | nil => rfl
  | cons a l ih =>
    simp only [List.map_cons]
    rw [h a (List.mem_cons_self a l), ih (fun b hb => h b (List.mem_cons_of_mem a hb))]

theorem map_comp_congr {α β : Type} (l : List α) (f : α → α) (proj : α → β)
    (h : ∀ a, proj (f a) = proj a) :
    l.map (fun a => proj (f a)) = l.map proj := by
  induction l with
  | nil => rfl
  | cons a l ih => simp only [List.map_cons, h, ih]

/- ----------------------------------------------------------------
Claim C9 (code bug): from_row panics on an unparseable stored timestamp
---------------------------------------------------------------- -/

/-- The largest i64 value: storable in a SQLite INTEGER column but far
outside the range representable by chrono DateTime. -/
def badTs : Int := 9223372036854775807

/-- Claim C9, evaluated at the failing input: a stored row whose
timestamp column holds i64 MAX makes each of the three row-to-entity
conversions take the panicking control path (the expect call on
DateTime::from_timestamp) instead of returning a typed error, refuting
the claim that the conversions are total with no reachable panic. -/
theorem from_row_panics_on_invalid_timestamp :
    Reading.from_row
      { reading_id := 1, timestamp := badTs, sensor_id := 1,
        value := some 1, state := none, change_type := none } =
      .panicked "Invalid timestamp" ∧
    Sensor.from_row
      { sensor_id := 1, sensor_name := "s", sensor_type := "temperature",
        location := none, unit := none, threshold_min := none,
        threshold_max := none, calibration_date := none, notes := none,
        created_at := badTs, updated_at := badTs } =
      .panicked "Invalid timestamp" ∧
    LoggingSession.from_row
      { session_id := 1, sensor_id := 1, start_time := badTs,
        end_time := none, sample_rate := none, notes := none } =
      .panicked "Invalid timestamp" := by
  refine ⟨?_, ?_, ?_⟩ <;>
    simp [Reading.from_row, Sensor.from_row, LoggingSession.from_row,
      dateTimeFromTimestamp, badTs, chronoMinTs, chronoMaxTs]

/- ----------------------------------------------------------------
Claim C10: unknown maintenance tasks are skipped silently
---------------------------------------------------------------- -/

/-- Claim C10: for every maintenance request, the response always has
success = true and its tasks_completed list is exactly the sublist of
requested task names recognized by the task loop (analyze, optimize,
vacuum), so any unrecognized name is silently omitted, causes no error,
and does not prevent the recognized tasks from completing. -/
theorem run_maintenance_unknown_tasks_skipped (db : DB) (tasks : List String)
    (bound : Option Int) :
    (run_maintenance db tasks bound).2.success = true ∧
    (run_maintenance db tasks bound).2.tasks_completed = tasks.filter recognizedTask := by
  constructor <;> rfl

/- ----------------------------------------------------------------
Claim C2 (code bug): Sensor::update does not refresh updated_at
---------------------------------------------------------------- -/

/-- A store holding one sensor created at time 100 (created_at and
updated_at both 100, as Sensor::create sets them). -/
def dbC2 : DB :=
  { sensors := [{ sensor_id := 1, sensor_name := "t", sensor_type := "temperature",
                  location := none, unit := none, threshold_min := none,
                  threshold_max := none, calibration_date := none, notes := none,
                  created_at := 100, updated_at := 100 }],
    readings := [], sessions := [],
    nextSensorId := 2, nextReadingId := 1, nextSessionId := 1 }

/-- The update payload applied to sensor 1 (later in wall time, which is
irrelevant: Sensor::update never reads the clock). -/
def sensC2 : Sensor :=
  { sensor_id := none, sensor_name := "renamed", sensor_type := "humidity",
    location := some "loft", unit := some "pct", threshold_min := none,
    threshold_max := none, calibration_date := none, notes := none }

/-- Claim C2, evaluated at the failing input: the UPDATE statement of
Sensor::update contains no updated_at assignment, so a successful update
leaves every created_at and updated_at pair of the table unchanged
(first conjunct, for all states and payloads), and concretely updating
the sensor created at time 100 succeeds yet leaves updated_at = 100 =
created_at, not strictly greater, refuting the refresh claim. -/
theorem sensor_update_does_not_refresh_updated_at :
    (∀ (db : DB) (s : Sensor) (id : Int),
      ((Sensor.update db s id).1).sensors.map (fun row => (row.created_at, row.updated_at)) =
        db.sensors.map (fun row => (row.created_at, row.updated_at))) ∧
    (Sensor.update dbC2 sensC2 1).2 = .ok () ∧
    ((Sensor.update dbC2 sensC2 1).1).sensors.map
        (fun row => (row.sensor_id, row.created_at, row.updated_at)) = [(1, 100, 100)] := by
  refine ⟨?_, ?_, ?_⟩
  · intro db s id
    have hmain :
        ∀ row : SensorRow,
          ((if row.sensor_id == id then applySensorUpdate s row else row).created_at,
           (if row.sensor_id == id then applySensorUpdate s row else row).updated_at) =
            (row.created_at, row.updated_at) := by
      intro row
      by_cases h : row.sensor_id == id <;> simp [h, applySensorUpdate]
    have hcomp :=
      map_comp_congr db.sensors
        (fun row => if row.sensor_id == id then applySensorUpdate s row else row)
        (fun row => (row.created_at, row.updated_at)) hmain
    have h1 : ((Sensor.update db s id).1).sensors =
        db.sensors.map (fun row => if row.sensor_id == id then applySensorUpdate s row else row) := by
      by_cases h0 : ((db.sensors.filter (fun row => row.sensor_id == id)).length == 0) <;>
        simp [Sensor.update, h0]
    rw [h1, List.map_map]
    exact hcomp
  · rfl
  · rfl

/- ----------------------------------------------------------------
Claim C3 (corrected): Reading::create performs no value/state validation
---------------------------------------------------------------- -/

/-- A store holding one sensor with id 1 and nothing else. -/
def dbC3 : DB :=
  { sensors := [{ sensor_id := 1, sensor_name := "t", sensor_type := "temperature",
                  location := none, unit := none, threshold_min := none,
                  threshold_max := none, calibration_date := none, notes := none,
                  created_at := 10, updated_at := 10 }],
    readings := [], sessions := [],
    nextSensorId := 2, nextReadingId := 1, nextSessionId := 1 }

/-- A reading referencing sensor 1 with both value and state absent. -/
def readingC3 : Reading :=
  { reading_id := none, timestamp := some 50, sensor_id := 1,
    value := none, state := none, change_type := none }

/-- Claim C3 counterexample: creating a reading whose value and state are
both absent succeeds (returns the generated id 1) and inserts the row
with NULL value and NULL state, so create does not fail with BadRequest
as the claim states. -/
theorem reading_create_accepts_missing_value_and_state :
    (Reading.create dbC3 readingC3 99).2 = .ok 1 ∧
    ((Reading.create dbC3 readingC3 99).1).readings.map
        (fun row => (row.sensor_id, row.value, row.state)) =
      [(1, none, none)] := by
  constructor <;> rfl

/-- Claim C3 as amended: Reading::create performs no validation of value
and state, so a reading with both absent and an existing sensor id is
inserted successfully and the generated id returned; a reading whose
sensor id does not exist fails with the foreign-key constraint violation
(not NotFound) and inserts nothing. -/
theorem reading_create_amended (db : DB) (r : Reading) (now : Int) :
    (sensorExists db r.sensor_id = true → r.value = none → r.state = none →
      ∃ db2, Reading.create db r now = (db2, .ok db.nextReadingId) ∧
        db2.readings.length = db.readings.length + 1) ∧
    (sensorExists db r.sensor_id = false →
      Reading.create db r now = (db, .error .foreignKey)) := by
  constructor
  · intro hex _ _
    refine ⟨{ db with
        readings := db.readings ++
          [{ reading_id := db.nextReadingId, timestamp := r.timestamp.getD now,
             sensor_id := r.sensor_id, value := r.value, state := r.state,
             change_type := r.change_type }],
        nextReadingId := db.nextReadingId + 1 }, ?_, ?_⟩
    · simp [Reading.create, hex]
    · simp
  · intro hnotex
    simp [Reading.create, hnotex]

/-- Claim C3 amended witness: both branches of the amended claim at
concrete inputs (sensor 1 exists in dbC3, sensor 7 does not). -/
theorem reading_create_amended_witness :
    (sensorExists dbC3 readingC3.sensor_id = true ∧ readingC3.value = none ∧
      readingC3.state = none ∧
      (∃ db2, Reading.create dbC3 readingC3 99 = (db2, .ok dbC3.nextReadingId) ∧
        db2.readings.length = dbC3.readings.length + 1)) ∧
    (sensorExists dbC3 7 = false ∧
      Reading.create dbC3 { readingC3 with sensor_id := 7 } 99 =
        (dbC3, .error .foreignKey)) := by
  refine ⟨⟨by decide, rfl, rfl, ?_⟩, ⟨by decide, ?_⟩⟩
  · exact (reading_create_amended dbC3 readingC3 99).1 (by decide) rfl rfl
  · exact (reading_create_amended dbC3 { readingC3 with sensor_id := 7 } 99).2 (by decide)

/- ----------------------------------------------------------------
Claim C1: bulk insert is all-or-nothing
---------------------------------------------------------------- -/

/-- Projection of an inserted readings row onto the caller-supplied
columns (everything except the generated rowid). -/
def rowColumns (row : ReadingRow) : Int × Int × Option Rat × Option Int × Option String :=
  (row.timestamp, row.sensor_id, row.value, row.state, row.change_type)

/-- The columns Reading::bulk_insert binds for an input reading: missing
timestamps are replaced by the batch-level now. -/
def inputColumns (now : Int) (r : Reading) :
    Int × Int × Option Rat × Option Int × Option String :=
  (r.timestamp.getD now, r.sensor_id, r.value, r.state, r.change_type)

theorem insertReadingTx_sensors (db db2 : DB) (r : Reading) (now : Int)
    (h : insertReadingTx db r now = .ok db2) :
    db2.sensors = db.sensors ∧ db2.sessions = db.sessions ∧
    db2.readings = db.readings ++
      [{ reading_id := db.nextReadingId, timestamp := r.timestamp.getD now,
         sensor_id := r.sensor_id, value := r.value, state := r.state,
         change_type := r.change_type }] := by
  unfold insertReadingTx at h
  by_cases hex : sensorExists db r.sensor_id
  · simp only [hex, if_true, Except.ok.injEq] at h
    subst h
    exact ⟨rfl, rfl, rfl⟩
  · simp [hex] at h

theorem sensorExists_eq_of_sensors (db db2 : DB) (h : db2.sensors = db.sensors) :
    ∀ sid, sensorExists db2 sid = sensorExists db sid := by
  intro sid
  simp [sensorExists, h]

/-- Success path of the bulk-insert loop: when every row of the batch
references an existing sensor, the loop inserts exactly the batch, in
order, and returns the accumulated count plus the batch length. -/
theorem bulkInsertLoop_ok (now : Int) :
    ∀ (rs : List Reading) (db : DB) (count : Nat),
      (∀ r ∈ rs, sensorExists db r.sensor_id = true) →
      ∃ db2 suffix, bulkInsertLoop db now rs count = .ok (db2, count + rs.length) ∧
        db2.sensors = db.sensors ∧ db2.sessions = db.sessions ∧
        db2.readings = db.readings ++ suffix ∧
        suffix.map rowColumns = rs.map (inputColumns now) := by
  intro rs
  induction rs with
  | nil =>
    intro db count _
    exact ⟨db, [], by simp [bulkInsertLoop], rfl, rfl, by simp, rfl⟩
  | cons r rs ih =>
    intro db count hvalid
    have hr : sensorExists db r.sensor_id = true :=
      hvalid r (List.mem_cons_self r rs)
    have hstep : insertReadingTx db r now = .ok
        { db with
          readings := db.readings ++
            [{ reading_id := db.nextReadingId, timestamp := r.timestamp.getD now,
               sensor_id := r.sensor_id, value := r.value, state := r.state,
               change_type := r.change_type }],
          nextReadingId := db.nextReadingId + 1 } := by
      simp [insertReadingTx, hr]
    set db1 : DB :=
      { db with
        readings := db.readings ++
          [{ reading_id := db.nextReadingId, timestamp := r.timestamp.getD now,
             sensor_id := r.sensor_id, value := r.value, state := r.state,
             change_type := r.change_type }],
        nextReadingId := db.nextReadingId + 1 } with hdb1
    have hsens : db1.sensors = db.sensors := rfl
    have hvalid1 : ∀ x ∈ rs, sensorExists db1 x.sensor_id = true := by
      intro x hx
      rw [sensorExists_eq_of_sensors db db1 hsens]
      exact hvalid x (List.mem_cons_of_mem r hx)
    obtain ⟨db2, suffix, hloop, hs2, hss2, hr2, hm2⟩ := ih db1 (count + 1) hvalid1
    refine ⟨db2,
      { reading_id := db.nextReadingId, timestamp := r.timestamp.getD now,
        sensor_id := r.sensor_id, value := r.value, state := r.state,
        change_type := r.change_type } :: suffix, ?_, ?_, ?_, ?_, ?_⟩
    · show bulkInsertLoop db now (r :: rs) count = .ok (db2, count + (r :: rs).length)
      have hlen : count + (r :: rs).length = count + 1 + rs.length := by
        simp only [List.length_cons]
        omega
      rw [hlen]
      unfold bulkInsertLoop
      rw [hstep]
      exact hloop
    · rw [hs2, hsens]
    · rw [hss2]
    · rw [hr2, hdb1]
      simp [List.append_assoc]
    · simp only [List.map_cons, hm2]
      rfl

/-- Failure path of the bulk-insert loop: when some row of the batch
references a missing sensor, the loop propagates a single error. -/
theorem bulkInsertLoop_error (now : Int) :
    ∀ (rs : List Reading) (db : DB) (count : Nat),
      (∃ r ∈ rs, sensorExists db r.sensor_id = false) →
      ∃ e, bulkInsertLoop db now rs count = .error e := by
  intro rs
  induction rs with
  | nil =>
    intro db count hbad
    obtain ⟨r, hr, _⟩ := hbad
    exact absurd hr (List.not_mem_nil r)
  | cons r rs ih =>
    intro db count hbad
    by_cases hr : sensorExists db r.sensor_id
    · have hstep : insertReadingTx db r now = .ok
          { db with
            readings := db.readings ++
              [{ reading_id := db.nextReadingId, timestamp := r.timestamp.getD now,
                 sensor_id := r.sensor_id, value := r.value, state := r.state,
                 change_type := r.change_type }],
            nextReadingId := db.nextReadingId + 1 } := by
        simp [insertReadingTx, hr]
      set db1 : DB :=
        { db with
          readings := db.readings ++
            [{ reading_id := db.nextReadingId, timestamp := r.timestamp.getD now,
               sensor_id := r.sensor_id, value := r.value, state := r.state,
               change_type := r.change_type }],
          nextReadingId := db.nextReadingId + 1 } with hdb1
      have hbad1 : ∃ x ∈ rs, sensorExists db1 x.sensor_id = false := by
        obtain ⟨x, hx, hxf⟩ := hbad
        rcases List.mem_cons.mp hx with hxr | hxrs
        · subst hxr
          rw [hxf] at hr
          exact absurd hr (by simp)
        · exact ⟨x, hxrs, by rw [sensorExists_eq_of_sensors db db1 rfl]; exact hxf⟩
      obtain ⟨e, hloop⟩ := ih db1 (count + 1) hbad1
      refine ⟨e, ?_⟩
      unfold bulkInsertLoop
      rw [hstep]
      exact hloop
    · refine ⟨.foreignKey, ?_⟩
      unfold bulkInsertLoop
      have hstep : insertReadingTx db r now = .error .foreignKey := by
        simp only [insertReadingTx]
        rw [if_neg hr]
      rw [hstep]

/-- Claim C1: bulk insert is all-or-nothing.  If any row of the batch
references a nonexistent sensor (the constraint enforced on readings),
the whole call returns the untouched pre-state together with exactly one
error, so zero rows of the batch are inserted; if every row passes the
constraint, the committed state contains the old readings followed by
exactly the batch rows (with the shared now fallback for missing
timestamps), the other tables are untouched, and the returned count is
the batch length. -/
theorem bulk_insert_all_or_nothing (db : DB) (rs : List Reading) (now : Int) :
    ((∃ r ∈ rs, sensorExists db r.sensor_id = false) →
      ∃ e, Reading.bulk_insert db rs now = (db, .error e)) ∧
    ((∀ r ∈ rs, sensorExists db r.sensor_id = true) →
      ∃ db2 suffix, Reading.bulk_insert db rs now = (db2, .ok rs.length) ∧
        db2.sensors = db.sensors ∧ db2.sessions = db.sessions ∧
        db2.readings = db.readings ++ suffix ∧
        suffix.map rowColumns = rs.map (inputColumns now)) := by
  constructor
  · intro hbad
    obtain ⟨e, hloop⟩ := bulkInsertLoop_error now rs db 0 hbad
    refine ⟨e, ?_⟩
    unfold Reading.bulk_insert
    rw [hloop]
  · intro hvalid
    obtain ⟨db2, suffix, hloop, hs, hss, hr, hm⟩ := bulkInsertLoop_ok now rs db 0 hvalid
    refine ⟨db2, suffix, ?_, hs, hss, hr, hm⟩
    unfold Reading.bulk_insert
    rw [hloop]
    simp

/-- Claim C1 witness: a two-row batch over dbC3 (sensor 1 exists).  The
valid batch inserts both rows and reports count 2; replacing the second
row with a reference to the missing sensor 7 makes the whole call return
the untouched dbC3 with one error. -/
theorem bulk_insert_all_or_nothing_witness :
    ((∀ r ∈ [readingC3, { readingC3 with timestamp := none }],
        sensorExists dbC3 r.sensor_id = true) ∧
      (∃ db2 suffix,
        Reading.bulk_insert dbC3 [readingC3, { readingC3 with timestamp := none }] 77 =
          (db2, .ok ([readingC3, { readingC3 with timestamp := none }] : List Reading).length) ∧
        db2.sensors = dbC3.sensors ∧ db2.sessions = dbC3.sessions ∧
        db2.readings = dbC3.readings ++ suffix ∧
        suffix.map rowColumns =
          ([readingC3, { readingC3 with timestamp := none }] : List Reading).map
            (inputColumns 77))) ∧
    ((∃ r ∈ [readingC3, { readingC3 with sensor_id := 7 }],
        sensorExists dbC3 r.sensor_id = false) ∧
      (∃ e, Reading.bulk_insert dbC3 [readingC3, { readingC3 with sensor_id := 7 }] 77 =
        (dbC3, .error e))) := by
  constructor
  · refine ⟨by decide, ?_⟩
    exact (bulk_insert_all_or_nothing dbC3
      [readingC3, { readingC3 with timestamp := none }] 77).2 (by decide)
  · refine ⟨⟨{ readingC3 with sensor_id := 7 }, by simp, by decide⟩, ?_⟩
    exact (bulk_insert_all_or_nothing dbC3
      [readingC3, { readingC3 with sensor_id := 7 }] 77).1
      ⟨{ readingC3 with sensor_id := 7 }, by simp, by decide⟩

/- ----------------------------------------------------------------
Claim C6: average insertion rate of the health report
---------------------------------------------------------------- -/

theorem listMin_isSome : ∀ (l : List Int), l ≠ [] → ∃ m, listMin l = some m
  | [], h => absurd rfl h
  | a :: l, _ => by
    cases hl : listMin l with
    | none => exact ⟨a, by simp [listMin, hl]⟩
    | some m => exact ⟨min a m, by simp [listMin, hl]⟩

theorem listMax_isSome : ∀ (l : List Int), l ≠ [] → ∃ m, listMax l = some m
  | [], h => absurd rfl h
  | a :: l, _ => by
    cases hl : listMax l with
    | none => exact ⟨a, by simp [listMax, hl]⟩
    | some m => exact ⟨max a m, by simp [listMax, hl]⟩

theorem listMax_eq_none : ∀ (l : List Int), listMax l = none → l = []
  | [], _ => rfl
  | a :: l, h => by
    cases hl : listMax l with
    | none => simp [listMax, hl] at h
    | some m => simp [listMax, hl] at h

theorem listMin_mem : ∀ (l : List Int) (m : Int), listMin l = some m → m ∈ l
  | [], m, h => by simp [listMin] at h
  | a :: l, m, h => by
    cases hl : listMin l with
    | none =>
      simp [listMin, hl] at h
      rw [← h]
      exact List.mem_cons_self a l
    | some k =>
      simp [listMin, hl] at h
      rcases min_cases a k with ⟨heq, _⟩ | ⟨heq, _⟩
      · rw [← h, heq]
        exact List.mem_cons_self a l
      · rw [← h, heq]
        exact List.mem_cons_of_mem a (listMin_mem l k hl)

theorem listMax_ge : ∀ (l : List Int) (M : Int), listMax l = some M → ∀ x ∈ l, x ≤ M
  | [], M, h => by simp [listMax] at h
  | a :: l, M, h => by
    intro x hx
    cases hl : listMax l with
    | none =>
      have hl2 : l = [] := listMax_eq_none l hl
      subst hl2
      simp [listMax] at h
      rcases List.mem_singleton.mp hx with hxa
      rw [hxa, ← h]
    | some k =>
      simp [listMax, hl] at h
      rcases List.mem_cons.mp hx with hxa | hxl
      · rw [hxa, ← h]
        exact le_max_left a k
      · calc x ≤ k := listMax_ge l k hl x hxl
          _ ≤ max a k := le_max_right a k
          _ = M := h

/-- Claim C6: in every store with at least one reading, the health
report computes oldest and newest as MIN and MAX of the reading
timestamps, and average_insert_rate is absent exactly when they are
equal; when they differ it equals the total reading count divided by
the span newest minus oldest in seconds. -/
theorem average_insert_rate_spec (db : DB) (h : db.readings ≠ []) :
    ((get_database_health db).average_insert_rate = none ↔
      (get_database_health db).oldest_reading = (get_database_health db).newest_reading) ∧
    (∀ o n : Int, (get_database_health db).oldest_reading = some o →
      (get_database_health db).newest_reading = some n → o ≠ n →
      (get_database_health db).average_insert_rate =
        some ((db.readings.length : Rat) / ((n - o : Int) : Rat))) := by
  obtain ⟨o, ho⟩ := listMin_isSome (db.readings.map (fun r => r.timestamp))
    (by simpa using h)
  obtain ⟨n, hn⟩ := listMax_isSome (db.readings.map (fun r => r.timestamp))
    (by simpa using h)
  have hcount : (0 : Int) < (db.readings.length : Int) := by
    have hp := List.length_pos.mpr h
    exact_mod_cast hp
  have hole : o ≤ n := by
    have hmem := listMin_mem _ o ho
    exact listMax_ge _ n hn o hmem
  have holdest : (get_database_health db).oldest_reading = some o := by
    simp [get_database_health, hcount, ho]
  have hnewest : (get_database_health db).newest_reading = some n := by
    simp [get_database_health, hcount, hn]
  have hsub : ((n - o : Int) : Rat) = (n : Rat) - (o : Rat) := by
    push_cast
    ring
  have havg : (get_database_health db).average_insert_rate =
      if o < n then
        some ((db.readings.length : Rat) / ((n : Rat) - (o : Rat)))
      else none := by
    simp only [get_database_health, hcount, ho, hn]
    simp
    split <;> rfl
  constructor
  · rw [holdest, hnewest, havg]
    constructor
    · intro hnone
      by_cases hd : o < n
      · rw [if_pos hd] at hnone
        cases hnone
      · have : o = n := le_antisymm hole (not_lt.mp hd)
        rw [this]
    · intro hsome
      have heq : o = n := by
        injection hsome
      rw [if_neg]
      rw [heq]
      exact lt_irrefl n
  · intro o2 n2 ho2 hn2 hne
    have heo : o2 = o := by
      rw [holdest] at ho2
      injection ho2 with hi
      exact hi.symm
    have hen : n2 = n := by
      rw [hnewest] at hn2
      injection hn2 with hi
      exact hi.symm
    subst heo
    subst hen
    have hlt : o2 < n2 := lt_of_le_of_ne hole hne
    rw [havg, if_pos hlt, hsub]

/-- A store with two readings, at timestamps 0 and 2, for sensor 1. -/
def dbC6 : DB :=
  { sensors := [{ sensor_id := 1, sensor_name := "t", sensor_type := "temperature",
                  location := none, unit := none, threshold_min := none,
                  threshold_max := none, calibration_date := none, notes := none,
                  created_at := 0, updated_at := 0 }],
    readings := [{ reading_id := 1, timestamp := 0, sensor_id := 1,
                   value := some 1, state := none, change_type := none },
                 { reading_id := 2, timestamp := 2, sensor_id := 1,
                   value := some 2, state := none, change_type := none }],
    sessions := [],
    nextSensorId := 2, nextReadingId := 3, nextSessionId := 1 }

/-- Claim C6 witness: dbC6 has two readings spanning two seconds, so the
theorem applies and characterizes its average rate. -/
theorem average_insert_rate_spec_witness :
    dbC6.readings ≠ [] ∧
    (((get_database_health dbC6).average_insert_rate = none ↔
      (get_database_health dbC6).oldest_reading = (get_database_health dbC6).newest_reading) ∧
    (∀ o n : Int, (get_database_health dbC6).oldest_reading = some o →
      (get_database_health dbC6).newest_reading = some n → o ≠ n →
      (get_database_health dbC6).average_insert_rate =
        some ((dbC6.readings.length : Rat) / ((n - o : Int) : Rat)))) := by
  refine ⟨by simp [dbC6], ?_⟩
  exact average_insert_rate_spec dbC6 (by simp [dbC6])

/- ----------------------------------------------------------------
Claim C7: query composition, ordering and truncation of Reading::get
---------------------------------------------------------------- -/

/-- The sensor-id equality predicate of the query (true when the filter
is not supplied). -/
def matchesSensor (q : ReadingQuery) (r : ReadingRow) : Bool :=
  match q.sensor_id with
  | some sid => r.sensor_id == sid
  | none => true

/-- The inclusive lower-bound predicate of the query. -/
def matchesStart (q : ReadingQuery) (r : ReadingRow) : Bool :=
  match q.start_time with
  | some st => st ≤ r.timestamp
  | none => true

/-- The inclusive upper-bound predicate of the query. -/
def matchesEnd (q : ReadingQuery) (r : ReadingRow) : Bool :=
  match q.end_time with
  | some et => r.timestamp ≤ et
  | none => true

/-- The conjunction of the three optional predicates of a reading query
(associated in the order the AND chain of the built SQL collapses to). -/
def readingPred (q : ReadingQuery) (r : ReadingRow) : Bool :=
  matchesEnd q r && (matchesStart q r && matchesSensor q r)

theorem reading_get_eq (db : DB) (q : ReadingQuery) (hoff : q.offset = none) :
    Reading.get db q =
      (List.insertionSort tsGe (db.readings.filter (readingPred q))).take
        (q.limit.getD 1000) := by
  rcases hsid : q.sensor_id with _ | sid <;>
    rcases hst : q.start_time with _ | st <;>
      rcases het : q.end_time with _ | et <;>
        simp only [Reading.get, hoff, hsid, hst, het, List.filter_filter] <;>
          congr 1 <;>
            congr 1
  · symm
    rw [List.filter_eq_self]
    intro a _
    simp [readingPred, matchesSensor, matchesStart, matchesEnd, hsid, hst, het]
  all_goals
    apply List.filter_congr
    intro a _
    simp [readingPred, matchesSensor, matchesStart, matchesEnd, hsid, hst, het]

/-- Claim C7: for every query without an offset, the result of
Reading::get is exactly the readings satisfying the conjunction of the
supplied predicates, ordered by timestamp descending, truncated to the
supplied limit or to the default 1000: it equals the truncated sorted
filter, is sorted, respects the limit, contains only rows satisfying
every supplied predicate, and is a permutation of the full intersection
whenever that intersection fits the limit. -/
theorem reading_get_filter_spec (db : DB) (q : ReadingQuery) (hoff : q.offset = none) :
    Reading.get db q =
      (List.insertionSort tsGe (db.readings.filter (readingPred q))).take
        (q.limit.getD 1000) ∧
    List.Sorted tsGe (Reading.get db q) ∧
    (Reading.get db q).length ≤ q.limit.getD 1000 ∧
    (∀ r ∈ Reading.get db q,
      matchesSensor q r = true ∧ matchesStart q r = true ∧ matchesEnd q r = true) ∧
    ((db.readings.filter (readingPred q)).length ≤ q.limit.getD 1000 →
      (Reading.get db q).Perm (db.readings.filter (readingPred q))) := by
  have hmain := reading_get_eq db q hoff
  refine ⟨hmain, ?_, ?_, ?_, ?_⟩
  · rw [hmain]
    exact List.Pairwise.sublist (List.take_sublist _ _)
      (List.sorted_insertionSort tsGe (db.readings.filter (readingPred q)))
  · rw [hmain, List.length_take]
    exact min_le_left _ _
  · intro r hr
    rw [hmain] at hr
    have hmem := List.mem_of_mem_take hr
    rw [List.mem_insertionSort] at hmem
    have hp := List.of_mem_filter hmem
    simp only [readingPred, Bool.and_eq_true] at hp
    exact ⟨hp.2.2, hp.2.1, hp.1⟩
  · intro hlen
    rw [hmain, List.take_of_length_le]
    · exact List.perm_insertionSort tsGe _
    · rw [List.length_insertionSort]
      exact hlen

/-- A store with two readings for two different sensors. -/
def dbC7 : DB :=
  { sensors := [{ sensor_id := 1, sensor_name := "t", sensor_type := "temperature",
                  location := none, unit := none, threshold_min := none,
                  threshold_max := none, calibration_date := none, notes := none,
                  created_at := 0, updated_at := 0 },
                { sensor_id := 2, sensor_name := "f", sensor_type := "flow",
                  location := none, unit := none, threshold_min := none,
                  threshold_max := none, calibration_date := none, notes := none,
                  created_at := 0, updated_at := 0 }],
    readings := [{ reading_id := 1, timestamp := 5, sensor_id := 1,
                   value := some 1, state := none, change_type := none },
                 { reading_id := 2, timestamp := 10, sensor_id := 2,
                   value := some 2, state := none, change_type := none }],
    sessions := [],
    nextSensorId := 3, nextReadingId := 3, nextSessionId := 1 }

/-- A query filtering on sensor 1 with no other predicate and no offset. -/
def qC7 : ReadingQuery :=
  { sensor_id := some 1, start_time := none, end_time := none,
    limit := none, offset := none }

/-- Claim C7 witness: the theorem applied to the concrete store dbC7 and
query qC7. -/
theorem reading_get_filter_spec_witness :
    qC7.offset = none ∧
    (Reading.get dbC7 qC7 =
      (List.insertionSort tsGe (dbC7.readings.filter (readingPred qC7))).take
        (qC7.limit.getD 1000) ∧
    List.Sorted tsGe (Reading.get dbC7 qC7) ∧
    (Reading.get dbC7 qC7).length ≤ qC7.limit.getD 1000 ∧
    (∀ r ∈ Reading.get dbC7 qC7,
      matchesSensor qC7 r = true ∧ matchesStart qC7 r = true ∧ matchesEnd qC7 r = true) ∧
    ((dbC7.readings.filter (readingPred qC7)).length ≤ qC7.limit.getD 1000 →
      (Reading.get dbC7 qC7).Perm (dbC7.readings.filter (readingPred qC7)))) :=
  ⟨rfl, reading_get_filter_spec dbC7 qC7 rfl⟩


/- ----------------------------------------------------------------
Claim C8: frame property of LoggingSession::end
---------------------------------------------------------------- -/

theorem zip_map_right {α β : Type} (l : List α) (f : α → β) :
    l.zip (l.map f) = l.map (fun a => (a, f a)) := by
  induction l with
  | nil => rfl
  | cons a l ih => simp [ih]

/-- Claim C8: ending the sessions of a sensor with no active session
fails with the NotFound error and returns the store unchanged (the UPDATE
matched no row); with exactly one active session the call succeeds, the
other tables are untouched, no session row is added or removed, and row
by row exactly the active session of that sensor gets end_time = now
while every other session row (same sensor history or other sensors) is
returned unchanged. -/
theorem session_end_frame_spec (db : DB) (sid now : Int) :
    (countActive db sid = 0 →
      LoggingSession.end_session db sid now =
        (db, .error (.notFound "No active logging session found for this sensor"))) ∧
    (countActive db sid = 1 →
      (LoggingSession.end_session db sid now).2 = .ok () ∧
      ((LoggingSession.end_session db sid now).1).sensors = db.sensors ∧
      ((LoggingSession.end_session db sid now).1).readings = db.readings ∧
      ((LoggingSession.end_session db sid now).1).sessions.length = db.sessions.length ∧
      (∀ p ∈ db.sessions.zip ((LoggingSession.end_session db sid now).1).sessions,
        (p.1.sensor_id = sid ∧ p.1.end_time = none →
          p.2 = { p.1 with end_time := some now }) ∧
        (¬(p.1.sensor_id = sid ∧ p.1.end_time = none) → p.2 = p.1))) := by
  constructor
  · intro h0
    have hnil : db.sessions.filter
        (fun row => row.sensor_id == sid && row.end_time.isNone) = [] := by
      have h0u : (db.sessions.filter
          (fun row => row.sensor_id == sid && row.end_time.isNone)).length = 0 := h0
      exact List.length_eq_zero.mp h0u
    have hmap : db.sessions.map (endUpdateRow sid now) = db.sessions := by
      apply map_id_of_mem
      intro a ha
      have hc := List.filter_eq_nil_iff.mp hnil a ha
      unfold endUpdateRow
      rw [if_neg hc]
    simp only [LoggingSession.end_session]
    rw [h0, hmap]
    simp
  · intro h1
    have hres : LoggingSession.end_session db sid now =
        ({ db with sessions := db.sessions.map (endUpdateRow sid now) }, .ok ()) := by
      simp only [LoggingSession.end_session]
      rw [h1]
      simp
    refine ⟨by rw [hres], by rw [hres], by rw [hres], ?_, ?_⟩
    · rw [hres]
      simp
    · intro p hp
      rw [hres] at hp
      simp only at hp
      rw [zip_map_right] at hp
      obtain ⟨a, ha, rfl⟩ := List.mem_map.mp hp
      constructor
      · rintro ⟨hsid2, hend⟩
        have hc : (a.sensor_id == sid && a.end_time.isNone) = true := by
          simp only at hsid2 hend
          simp [hsid2, hend]
        simp only [endUpdateRow]
        rw [if_pos hc]
      · intro hn
        simp only [endUpdateRow]
        rw [if_neg]
        intro hc
        simp only [Bool.and_eq_true, beq_iff_eq, Option.isNone_iff_eq_none] at hc
        exact hn hc

/-- A store whose sessions table holds one active and one closed session
for sensor 1 and one active session for sensor 2. -/
def dbC8 : DB :=
  { sensors := [{ sensor_id := 1, sensor_name := "t", sensor_type := "temperature",
                  location := none, unit := none, threshold_min := none,
                  threshold_max := none, calibration_date := none, notes := none,
                  created_at := 0, updated_at := 0 },
                { sensor_id := 2, sensor_name := "f", sensor_type := "flow",
                  location := none, unit := none, threshold_min := none,
                  threshold_max := none, calibration_date := none, notes := none,
                  created_at := 0, updated_at := 0 }],
    readings := [],
    sessions := [{ session_id := 1, sensor_id := 1, start_time := 10,
                   end_time := none, sample_rate := some 60, notes := none },
                 { session_id := 2, sensor_id := 1, start_time := 1,
                   end_time := some 5, sample_rate := none, notes := none },
                 { session_id := 3, sensor_id := 2, start_time := 20,
                   end_time := none, sample_rate := none, notes := none }],
    nextSensorId := 3, nextReadingId := 1, nextSessionId := 4 }

/-- Claim C8 witness: sensor 3 has no active session in dbC8, sensor 1
has exactly one; the theorem is applied at both. -/
theorem session_end_frame_spec_witness :
    (countActive dbC8 3 = 0 ∧
      LoggingSession.end_session dbC8 3 99 =
        (dbC8, .error (.notFound "No active logging session found for this sensor"))) ∧
    (countActive dbC8 1 = 1 ∧
      (LoggingSession.end_session dbC8 1 99).2 = .ok () ∧
      (∀ p ∈ dbC8.sessions.zip ((LoggingSession.end_session dbC8 1 99).1).sessions,
        (p.1.sensor_id = 1 ∧ p.1.end_time = none →
          p.2 = { p.1 with end_time := some 99 }) ∧
        (¬(p.1.sensor_id = 1 ∧ p.1.end_time = none) → p.2 = p.1))) := by
  constructor
  · exact ⟨by decide, (session_end_frame_spec dbC8 3 99).1 (by decide)⟩
  · refine ⟨by decide, ?_, ?_⟩
    · exact ((session_end_frame_spec dbC8 1 99).2 (by decide)).1
    · exact ((session_end_frame_spec dbC8 1 99).2 (by decide)).2.2.2.2


/- ----------------------------------------------------------------
Claim C4: at most one active session per sensor, in every reachable state
---------------------------------------------------------------- -/

/-- The invariant: no sensor ever has more than one session with a NULL
end_time. -/
def AtMostOneActive (db : DB) : Prop :=
  ∀ sid : Int, countActive db sid ≤ 1

/-- One mutating store operation, with arbitrary caller-supplied
arguments and clock values: the committed post-state of any of the write
paths of the three entity stores or of the maintenance service. -/
inductive Step : DB → DB → Prop where
  | sensor_create : ∀ (db : DB) (s : Sensor) (now : Int),
      Step db (Sensor.create db s now).1
  | sensor_update : ∀ (db : DB) (s : Sensor) (id : Int),
      Step db (Sensor.update db s id).1
  | sensor_delete : ∀ (db : DB) (id : Int),
      Step db (Sensor.delete db id).1
  | reading_create : ∀ (db : DB) (r : Reading) (now : Int),
      Step db (Reading.create db r now).1
  | reading_bulk : ∀ (db : DB) (rs : List Reading) (now : Int),
      Step db (Reading.bulk_insert db rs now).1
  | reading_delete : ∀ (db : DB) (sid : Option Int) (a b : Int),
      Step db (Reading.delete_range db sid a b).1
  | session_start : ∀ (db : DB) (s : LoggingSession) (now : Int),
      Step db (LoggingSession.start db s now).1
  | session_end : ∀ (db : DB) (sid now : Int),
      Step db (LoggingSession.end_session db sid now).1
  | maintenance : ∀ (db : DB) (tasks : List String) (bound : Option Int),
      Step db (run_maintenance db tasks bound).1

/-- States reachable from a freshly migrated empty store by any sequence
of store operations. -/
def Reachable (db : DB) : Prop :=
  Relation.ReflTransGen Step DB.init db

theorem countActive_congr (db db2 : DB) (h : db2.sessions = db.sessions) (sid : Int) :
    countActive db2 sid = countActive db sid := by
  simp [countActive, h]

theorem sensor_update_sessions (db : DB) (s : Sensor) (id : Int) :
    ((Sensor.update db s id).1).sessions = db.sessions := by
  simp only [Sensor.update]
  split <;> rfl

theorem reading_create_sessions (db : DB) (r : Reading) (now : Int) :
    ((Reading.create db r now).1).sessions = db.sessions := by
  simp only [Reading.create]
  split <;> rfl

theorem bulkInsertLoop_frame (now : Int) :
    ∀ (rs : List Reading) (db : DB) (count : Nat) (db2 : DB) (c : Nat),
      bulkInsertLoop db now rs count = .ok (db2, c) → db2.sessions = db.sessions
  | [], db, count, db2, c, h => by
    simp only [bulkInsertLoop] at h
    injection h with h1
    injection h1 with ha hb
    rw [← ha]
  | r :: rs, db, count, db2, c, h => by
    unfold bulkInsertLoop at h
    cases hstep : insertReadingTx db r now with
    | error e =>
      rw [hstep] at h
      cases h
    | ok db1 =>
      rw [hstep] at h
      have h1 := bulkInsertLoop_frame now rs db1 (count + 1) db2 c h
      have h2 := (insertReadingTx_sensors db db1 r now hstep).2.1
      rw [h1, h2]

theorem bulk_insert_sessions (db : DB) (rs : List Reading) (now : Int) :
    ((Reading.bulk_insert db rs now).1).sessions = db.sessions := by
  unfold Reading.bulk_insert
  cases hl : bulkInsertLoop db now rs 0 with
  | error e => rfl
  | ok p =>
    obtain ⟨db2, c⟩ := p
    exact bulkInsertLoop_frame now rs db 0 db2 c hl

theorem run_maintenance_sessions (db : DB) (tasks : List String) (bound : Option Int) :
    ((run_maintenance db tasks bound).1).sessions = db.sessions := by
  cases bound <;> rfl

theorem length_filter_map_le {α : Type} (l : List α) (f : α → α) (p q : α → Bool)
    (h : ∀ a, p (f a) = true → q a = true) :
    ((l.map f).filter p).length ≤ (l.filter q).length := by
  induction l with
  | nil => simp
  | cons a l ih =>
    simp only [List.map_cons, List.filter_cons]
    by_cases hp : p (f a) = true
    · rw [if_pos hp, if_pos (h a hp)]
      simp only [List.length_cons]
      omega
    · rw [if_neg hp]
      by_cases hq : q a = true
      · rw [if_pos hq]
        exact le_trans ih (by simp)
      · rw [if_neg hq]
        exact ih

theorem endUpdateRow_active_mono (sid now sid2 : Int) (a : SessionRow)
    (hpa : ((endUpdateRow sid now a).sensor_id == sid2 &&
      (endUpdateRow sid now a).end_time.isNone) = true) :
    (a.sensor_id == sid2 && a.end_time.isNone) = true := by
  unfold endUpdateRow at hpa
  by_cases hc : (a.sensor_id == sid && a.end_time.isNone) = true
  · rw [if_pos hc] at hpa
    simp at hpa
  · rw [if_neg hc] at hpa
    exact hpa

theorem step_preserves (db db2 : DB) (hstep : Step db db2)
    (hinv : AtMostOneActive db) : AtMostOneActive db2 := by
  cases hstep with
  | sensor_create s now =>
    intro sid
    rw [countActive_congr db (Sensor.create db s now).1 rfl sid]
    exact hinv sid
  | sensor_update s id =>
    intro sid
    rw [countActive_congr db (Sensor.update db s id).1
      (sensor_update_sessions db s id) sid]
    exact hinv sid
  | sensor_delete id =>
    intro sid
    by_cases h0 : (db.sensors.filter (fun row => row.sensor_id == id)).length = 0
    · have hdb : (Sensor.delete db id).1 = db := by
        simp [Sensor.delete, h0]
      rw [hdb]
      exact hinv sid
    · have hsess : ((Sensor.delete db id).1).sessions =
          db.sessions.filter (fun s => !(s.sensor_id == id)) := by
        simp [Sensor.delete, h0, cascadeDelete]
      have hle : countActive (Sensor.delete db id).1 sid ≤ countActive db sid := by
        simp only [countActive, hsess]
        exact List.Sublist.length_le
          (List.Sublist.filter _ (List.filter_sublist db.sessions))
      exact le_trans hle (hinv sid)
  | reading_create r now =>
    intro sid
    rw [countActive_congr db (Reading.create db r now).1
      (reading_create_sessions db r now) sid]
    exact hinv sid
  | reading_bulk rs now =>
    intro sid
    rw [countActive_congr db (Reading.bulk_insert db rs now).1
      (bulk_insert_sessions db rs now) sid]
    exact hinv sid
  | reading_delete osid a b =>
    intro sid
    rw [countActive_congr db (Reading.delete_range db osid a b).1 rfl sid]
    exact hinv sid
  | session_start s now =>
    intro sid
    by_cases hact : countActive db s.sensor_id > 0
    · have hdb : (LoggingSession.start db s now).1 = db := by
        simp [LoggingSession.start, hact]
      rw [hdb]
      exact hinv sid
    · by_cases hex : sensorExists db s.sensor_id = true
      · have hsess : ((LoggingSession.start db s now).1).sessions =
            db.sessions ++ [startRow db s now] := by
          simp [LoggingSession.start, hact, hex]
        simp only [countActive, hsess, List.filter_append, List.length_append]
        by_cases hsid : s.sensor_id = sid
        · have hz : (db.sessions.filter
              (fun row => row.sensor_id == sid && row.end_time.isNone)).length = 0 := by
            have hzero := hact
            rw [hsid] at hzero
            simp only [countActive] at hzero
            omega
          have hone : (([startRow db s now] : List SessionRow).filter
              (fun row => row.sensor_id == sid && row.end_time.isNone)).length ≤ 1 := by
            apply le_trans (List.length_filter_le _ _)
            simp
          omega
        · have hnil : (([startRow db s now] : List SessionRow).filter
              (fun row => row.sensor_id == sid && row.end_time.isNone)).length = 0 := by
            simp [startRow, hsid]
          have hle := hinv sid
          simp only [countActive] at hle
          omega
      · have hdb : (LoggingSession.start db s now).1 = db := by
          simp [LoggingSession.start, hact, hex]
        rw [hdb]
        exact hinv sid
  | session_end sid2 now =>
    intro sid
    have hsess : ((LoggingSession.end_session db sid2 now).1).sessions =
        db.sessions.map (endUpdateRow sid2 now) := by
      simp only [LoggingSession.end_session]
      split <;> rfl
    have hle : countActive (LoggingSession.end_session db sid2 now).1 sid ≤
        countActive db sid := by
      simp only [countActive, hsess]
      exact length_filter_map_le db.sessions (endUpdateRow sid2 now) _ _
        (endUpdateRow_active_mono sid2 now sid)
    exact le_trans hle (hinv sid)
  | maintenance tasks bound =>
    intro sid
    rw [countActive_congr db (run_maintenance db tasks bound).1
      (run_maintenance_sessions db tasks bound) sid]
    exact hinv sid

theorem init_at_most_one_active : AtMostOneActive DB.init := by
  intro sid
  simp [countActive, DB.init]

/-- Claim C4: in every store state reachable from a fresh store by any
sequence of store operations, each sensor has at most one active
(end-time-null) session; and starting a session for a sensor that
already has an active one fails with the Conflict error and returns the
store unchanged. -/
theorem at_most_one_active_session_invariant :
    (∀ db : DB, Reachable db → AtMostOneActive db) ∧
    (∀ (db : DB) (s : LoggingSession) (now : Int),
      countActive db s.sensor_id > 0 →
      LoggingSession.start db s now =
        (db, .error (.conflict "Sensor already has an active logging session"))) := by
  constructor
  · intro db hreach
    induction hreach with
    | refl => exact init_at_most_one_active
    | tail hsteps hstep ih => exact step_preserves _ _ hstep ih
  · intro db s now hact
    simp [LoggingSession.start, hact]

/-- The session payload used by the C4 witness: a new session for sensor
1, which already has an active session in dbC8. -/
def sessC4 : LoggingSession :=
  { session_id := none, sensor_id := 1, start_time := none,
    end_time := none, sample_rate := none, notes := none }

/-- Claim C4 witness: the invariant holds at the reachable initial
state, and starting a session for sensor 1 of dbC8 (which has an active
session) is rejected with the Conflict error, leaving the store as it
was. -/
theorem at_most_one_active_session_invariant_witness :
    (Reachable DB.init ∧ AtMostOneActive DB.init) ∧
    (countActive dbC8 sessC4.sensor_id > 0 ∧
      LoggingSession.start dbC8 sessC4 5 =
        (dbC8, .error (.conflict "Sensor already has an active logging session"))) := by
  refine ⟨⟨Relation.ReflTransGen.refl, ?_⟩, ⟨by decide, ?_⟩⟩
  · exact at_most_one_active_session_invariant.1 DB.init Relation.ReflTransGen.refl
  · exact at_most_one_active_session_invariant.2 dbC8 sessC4 5 (by decide)
